import Mathlib

/-!
# Verification of the transaction-listing backend (src/app.py)

Shallow embedding of the Flask application in `src/app.py`.  The SQLite
table of `Transaction` rows is modelled as a `List Transaction` in
insertion order; SQL filters become `List.filter`, SQL `count(*)` becomes
`List.length` of the filtered list, SQL `SUM` becomes an `Option`-valued
sum (`NULL` on an empty set of rows), and SQL `GROUP BY` becomes grouping
over first-occurrence-deduplicated keys.  The `REAL` column `price` is
modelled by `ℚ`; every comparison the program performs on it is an exact
order comparison, which float comparison on the stored values realises.
HTTP handler outcomes are modelled by `HResp`: `ok` for a 200 JSON
payload, `badRequest` for the explicit `(jsonify(error), 400)` returns,
and `exn` for an uncaught Python exception (which Flask turns into an
HTTP 500 response).
-/

/-- A calendar date as stored in the `dateOfSale` column (`db.Date`). -/
structure DateD where
  year : Nat
  month : Nat
  day : Nat
deriving DecidableEq

/-- One row of the `Transaction` table of `src/app.py`. -/
structure Transaction where
  id : Nat
  title : String
  description : String
  price : ℚ
  category : String
  dateOfSale : DateD
deriving DecidableEq

/-- Outcome of a request handler: 200 payload, explicit 400 return, or an
uncaught exception (HTTP 500). -/
inductive HResp (α : Type) where
  | ok : α → HResp α
  | badRequest : String → HResp α
  | exn : String → HResp α
deriving DecidableEq

/-- The English month names recognised by `datetime.strptime(_, "%B")`. -/
def monthNames : List String :=
  ["January", "February", "March", "April", "May", "June",
   "July", "August", "September", "October", "November", "December"]

/-- ASCII lowercasing of one character. -/
def lower_char (c : Char) : Char :=
  if 65 ≤ c.toNat ∧ c.toNat ≤ 90 then Char.ofNat (c.toNat + 32) else c

/-- ASCII lowercasing of a string. -/
def lower_str (s : String) : String :=
  String.mk (s.data.map lower_char)

/-- `datetime.datetime.strptime(s, "%B").month` from `src/app.py`: Python
matches the full month name case-insensitively; `none` models the
`ValueError` raised on any other string. -/
def strptime (s : String) : Option Nat :=
  (monthNames.findIdx? (fun n => lower_str n == lower_str s)).map (· + 1)

/-- The filter `extract('month', Transaction.dateOfSale) == month_num`
used by every endpoint of `src/app.py`. -/
def month_filter (store : List Transaction) (k : Nat) : List Transaction :=
  store.filter (fun t => t.dateOfSale.month == k)

/-- Substring containment, the meaning of SQL `LIKE '%s%'` on a text
column (ASCII case-insensitivity of SQLite `LIKE` is applied by the
caller via `toLower`). -/
def str_contains (s pat : String) : Bool :=
  (List.range (s.data.length + 1)).any (fun i => pat.data.isPrefixOf (s.data.drop i))

/-- The search predicate of `get_transactions` in `src/app.py`:
`title LIKE '%s%' OR description LIKE '%s%' OR price LIKE '%s%'`.
SQLite compares `LIKE` case-insensitively on ASCII, hence the `toLower`.
The third disjunct compares the pattern against SQLite's textual
rendering of the `REAL` column `price`; that rendering is external
library behaviour and is passed in as the parameter `priceLike`. -/
def like_match (priceLike : String → ℚ → Bool) (s : String) (t : Transaction) : Bool :=
  str_contains (lower_str t.title) (lower_str s) ||
  str_contains (lower_str t.description) (lower_str s) ||
  priceLike s t.price

/-- `Query.paginate(page, per_page, False)` of flask-sqlalchemy 2.x:
with `error_out=False` a `page < 1` is replaced by 1 and a negative
`per_page` by 20, then the items are `LIMIT per_page OFFSET
(page-1)*per_page`; an out-of-range page yields `[]`, never an error. -/
def paginate (l : List Transaction) (page per_page : Int) : List Transaction :=
  let p : Int := if page < 1 then 1 else page
  let n : Int := if per_page < 0 then 20 else per_page
  (l.drop ((p - 1) * n).toNat).take n.toNat

/-- `"%02d"`-style padding used by `date.isoformat()`. -/
def pad2 (n : Nat) : String :=
  if n < 10 then "0" ++ toString n else toString n

/-- `dateOfSale.isoformat()` from the serialisation in `get_transactions`. -/
def isoformat (d : DateD) : String :=
  toString d.year ++ "-" ++ pad2 d.month ++ "-" ++ pad2 d.day

/-- The JSON object produced for one transaction by `get_transactions`. -/
structure TransactionOut where
  title : String
  description : String
  price : ℚ
  category : String
  dateOfSale : String
deriving DecidableEq

/-- The dictionary comprehension of `get_transactions` in `src/app.py`. -/
def serialize (t : Transaction) : TransactionOut :=
  ⟨t.title, t.description, t.price, t.category, isoformat t.dateOfSale⟩

/-- The query built by `get_transactions` before pagination: the month
filter is applied when the `month` argument is non-empty (parse failure,
i.e. `none`, models the `ValueError` escaping the handler), then the
search filter when `search` is non-empty. -/
def transactions_query (priceLike : String → ℚ → Bool) (store : List Transaction)
    (search : String) (month? : Option String) : Option (List Transaction) :=
  let month := month?.getD ""
  (if month = "" then some store
   else (strptime month).map (fun k => month_filter store k)).map
    (fun q => if search = "" then q else q.filter (like_match priceLike search))

/-- The `/transactions` handler of `src/app.py`. -/
def get_transactions (priceLike : String → ℚ → Bool) (store : List Transaction)
    (search : String) (page per_page : Int) (month? : Option String) :
    HResp (List TransactionOut) :=
  match transactions_query priceLike store search month? with
  | none => .exn "ValueError"
  | some q => .ok ((paginate q page per_page).map serialize)

/-- `func.sum(Transaction.price)` over a set of rows: SQL `SUM` is `NULL`
on an empty set of rows, otherwise the sum. -/
def sql_sum (l : List ℚ) : Option ℚ :=
  if l = [] then none else some l.sum

/-- The JSON object returned by `/statistics`. -/
structure Statistics where
  total_sales : Option ℚ
  total_items : Nat
  not_sold_items : Nat
deriving DecidableEq

/-- The three aggregates computed by `get_statistics` for a month number. -/
def statistics_core (store : List Transaction) (k : Nat) : Statistics :=
  { total_sales := sql_sum ((month_filter store k).map (fun t => t.price))
  , total_items := (month_filter store k).length
  , not_sold_items := ((month_filter store k).filter (fun t => t.price == 0)).length }

/-- The `/statistics` handler of `src/app.py`: `if not month` catches an
absent (`None`) and an empty `month` argument with a 400 response;
an unrecognised month name raises `ValueError` out of the handler. -/
def get_statistics (store : List Transaction) (month? : Option String) :
    HResp Statistics :=
  match month? with
  | none => .badRequest "Month is required"
  | some m =>
    if m = "" then .badRequest "Month is required"
    else match strptime m with
      | none => .exn "ValueError"
      | some k => .ok (statistics_core store k)

/-- The `ranges` list of `get_bar_chart` in `src/app.py`; `none` stands
for `float('inf')` as the upper bound of the last range. -/
def ranges : List (ℚ × Option ℚ) :=
  [(0, some 100), (101, some 200), (201, some 300), (301, some 400), (401, some 500),
   (501, some 600), (601, some 700), (701, some 800), (801, some 900), (901, none)]

/-- The filter `price >= start AND price < end` of `get_bar_chart`; for
the last range the code compares `price < float('inf')`, true of every
stored (finite) price. -/
def in_range (r : ℚ × Option ℚ) (p : ℚ) : Bool :=
  decide (r.1 ≤ p) && (match r.2 with | some e => decide (p < e) | none => true)

/-- The f-string `f"{start}-{end}"` label, with `"above"` for infinity. -/
def range_label (r : ℚ × Option ℚ) : String :=
  toString r.1.num ++ "-" ++ (match r.2 with | some e => toString e.num | none => "above")

/-- One `{'range': ..., 'count': ...}` entry of the bar-chart payload. -/
structure Bar where
  range : String
  count : Nat
deriving DecidableEq

/-- The loop body of `get_bar_chart`: one count per entry of `ranges`. -/
def bar_chart_core (store : List Transaction) (k : Nat) : List Bar :=
  ranges.map (fun r =>
    { range := range_label r
    , count := ((month_filter store k).filter (fun t => in_range r t.price)).length })

/-- The `/bar_chart` handler of `src/app.py`. -/
def get_bar_chart (store : List Transaction) (month? : Option String) :
    HResp (List Bar) :=
  match month? with
  | none => .badRequest "Month is required"
  | some m =>
    if m = "" then .badRequest "Month is required"
    else match strptime m with
      | none => .exn "ValueError"
      | some k => .ok (bar_chart_core store k)

/-- One `{'category': ..., 'count': ...}` entry of the pie-chart payload. -/
structure Pie where
  category : String
  count : Nat
deriving DecidableEq

/-- The `GROUP BY category` query of `get_pie_chart`: one row per distinct
category among the matching-month rows, with its row count. -/
def pie_chart_core (store : List Transaction) (k : Nat) : List Pie :=
  (((month_filter store k).map (fun t => t.category)).dedup).map (fun c =>
    { category := c
    , count := ((month_filter store k).map (fun t => t.category)).count c })

/-- The `/pie_chart` handler of `src/app.py`. -/
def get_pie_chart (store : List Transaction) (month? : Option String) :
    HResp (List Pie) :=
  match month? with
  | none => .badRequest "Month is required"
  | some m =>
    if m = "" then .badRequest "Month is required"
    else match strptime m with
      | none => .exn "ValueError"
      | some k => .ok (pie_chart_core store k)

/-- The JSON object returned by `/combined_data`. -/
structure Combined where
  transactions : List TransactionOut
  statistics : Statistics
  bar_chart : List Bar
  pie_chart : List Pie
deriving DecidableEq

/-- The `/combined_data` handler of `src/app.py`.  After its own `month`
presence check it calls the four handler functions directly; they read
the same request arguments, so `search`, `page` and `per_page` of the
outer request are forwarded to `get_transactions`.  An exception in a
sub-handler propagates out of `get_combined_data`. -/
def get_combined_data (priceLike : String → ℚ → Bool) (store : List Transaction)
    (search : String) (page per_page : Int) (month? : Option String) :
    HResp Combined :=
  match month? with
  | none => .badRequest "Month is required"
  | some m =>
    if m = "" then .badRequest "Month is required"
    else
      match get_transactions priceLike store search page per_page month? with
      | .badRequest e => .badRequest e
      | .exn e => .exn e
      | .ok tx =>
        match get_statistics store month? with
        | .badRequest e => .badRequest e
        | .exn e => .exn e
        | .ok st =>
          match get_bar_chart store month? with
          | .badRequest e => .badRequest e
          | .exn e => .exn e
          | .ok bc =>
            match get_pie_chart store month? with
            | .badRequest e => .badRequest e
            | .exn e => .exn e
            | .ok pc => .ok ⟨tx, st, bc, pc⟩

/-- The `setup` hook of `src/app.py`: after `create_all`, the seed data is
fetched and inserted only when `Transaction.query.first()` is `None`,
i.e. when the store is empty.  The boolean records whether `seed_data()`
(the external fetch plus bulk insert) ran. -/
def setup (store seed : List Transaction) : List Transaction × Bool :=
  if store.isEmpty then (store ++ seed, true) else (store, false)

/-- A price that is non-negative and avoids the nine unit-wide gaps
`[100,101), [200,201), ..., [900,901)` that the `ranges` list of
`get_bar_chart` leaves between consecutive buckets. -/
def good_price (p : ℚ) : Prop :=
  0 ≤ p ∧
  ¬(100 ≤ p ∧ p < 101) ∧ ¬(200 ≤ p ∧ p < 201) ∧ ¬(300 ≤ p ∧ p < 301) ∧
  ¬(400 ≤ p ∧ p < 401) ∧ ¬(500 ≤ p ∧ p < 501) ∧ ¬(600 ≤ p ∧ p < 601) ∧
  ¬(700 ≤ p ∧ p < 701) ∧ ¬(800 ≤ p ∧ p < 801) ∧ ¬(900 ≤ p ∧ p < 901)

instance (p : ℚ) : Decidable (good_price p) := by
  unfold good_price
  infer_instance

lemma good_price_regions (p : ℚ) (hg : good_price p) :
    (0 ≤ p ∧ p < 100) ∨ (101 ≤ p ∧ p < 200) ∨ (201 ≤ p ∧ p < 300) ∨
    (301 ≤ p ∧ p < 400) ∨ (401 ≤ p ∧ p < 500) ∨ (501 ≤ p ∧ p < 600) ∨
    (601 ≤ p ∧ p < 700) ∨ (701 ≤ p ∧ p < 800) ∨ (801 ≤ p ∧ p < 900) ∨
    901 ≤ p := by
  obtain ⟨h0, g1, g2, g3, g4, g5, g6, g7, g8, g9⟩ := hg
  rcases lt_or_le p 100 with h | h
  · exact Or.inl ⟨h0, h⟩
  have h1 : 101 ≤ p := by by_contra hc; push_neg at hc; exact g1 ⟨h, hc⟩
  rcases lt_or_le p 200 with h | h
  · exact Or.inr (Or.inl ⟨h1, h⟩)
  have h2 : 201 ≤ p := by by_contra hc; push_neg at hc; exact g2 ⟨h, hc⟩
  rcases lt_or_le p 300 with h | h
  · exact Or.inr (Or.inr (Or.inl ⟨h2, h⟩))
  have h3 : 301 ≤ p := by by_contra hc; push_neg at hc; exact g3 ⟨h, hc⟩
  rcases lt_or_le p 400 with h | h
  · exact Or.inr (Or.inr (Or.inr (Or.inl ⟨h3, h⟩)))
  have h4 : 401 ≤ p := by by_contra hc; push_neg at hc; exact g4 ⟨h, hc⟩
  rcases lt_or_le p 500 with h | h
  · exact Or.inr (Or.inr (Or.inr (Or.inr (Or.inl ⟨h4, h⟩))))
  have h5 : 501 ≤ p := by by_contra hc; push_neg at hc; exact g5 ⟨h, hc⟩
  rcases lt_or_le p 600 with h | h
  · exact Or.inr (Or.inr (Or.inr (Or.inr (Or.inr (Or.inl ⟨h5, h⟩)))))
  have h6 : 601 ≤ p := by by_contra hc; push_neg at hc; exact g6 ⟨h, hc⟩
  rcases lt_or_le p 700 with h | h
  · exact Or.inr (Or.inr (Or.inr (Or.inr (Or.inr (Or.inr (Or.inl ⟨h6, h⟩))))))
  have h7 : 701 ≤ p := by by_contra hc; push_neg at hc; exact g7 ⟨h, hc⟩
  rcases lt_or_le p 800 with h | h
  · exact Or.inr (Or.inr (Or.inr (Or.inr (Or.inr (Or.inr (Or.inr (Or.inl ⟨h7, h⟩)))))))
  have h8 : 801 ≤ p := by by_contra hc; push_neg at hc; exact g8 ⟨h, hc⟩
  rcases lt_or_le p 900 with h | h
  · exact Or.inr (Or.inr (Or.inr (Or.inr (Or.inr (Or.inr (Or.inr (Or.inr (Or.inl ⟨h8, h⟩))))))))
  have h9 : 901 ≤ p := by by_contra hc; push_neg at hc; exact g9 ⟨h, hc⟩
  exact Or.inr (Or.inr (Or.inr (Or.inr (Or.inr (Or.inr (Or.inr (Or.inr (Or.inr h9))))))))

lemma ranges_countP_eq_one (p : ℚ) (hg : good_price p) :
    ranges.countP (fun r => in_range r p) = 1 := by
  have h0 : (0:ℚ) ≤ p := hg.1
  rcases good_price_regions p hg with h | h | h | h | h | h | h | h | h | h
  · simp [ranges, List.countP_cons, in_range, decide_eq_true h.1, decide_eq_true h.2,
      decide_eq_false (show ¬(101:ℚ) ≤ p from fun hc => by linarith [h.2]),
      decide_eq_false (show ¬(201:ℚ) ≤ p from fun hc => by linarith [h.2]),
      decide_eq_false (show ¬(301:ℚ) ≤ p from fun hc => by linarith [h.2]),
      decide_eq_false (show ¬(401:ℚ) ≤ p from fun hc => by linarith [h.2]),
      decide_eq_false (show ¬(501:ℚ) ≤ p from fun hc => by linarith [h.2]),
      decide_eq_false (show ¬(601:ℚ) ≤ p from fun hc => by linarith [h.2]),
      decide_eq_false (show ¬(701:ℚ) ≤ p from fun hc => by linarith [h.2]),
      decide_eq_false (show ¬(801:ℚ) ≤ p from fun hc => by linarith [h.2]),
      decide_eq_false (show ¬(901:ℚ) ≤ p from fun hc => by linarith [h.2])]
  · simp [ranges, List.countP_cons, in_range, decide_eq_true h.1, decide_eq_true h.2,
      decide_eq_false (show ¬p < (100:ℚ) from fun hc => by linarith [h.1]),
      decide_eq_false (show ¬(201:ℚ) ≤ p from fun hc => by linarith [h.2]),
      decide_eq_false (show ¬(301:ℚ) ≤ p from fun hc => by linarith [h.2]),
      decide_eq_false (show ¬(401:ℚ) ≤ p from fun hc => by linarith [h.2]),
      decide_eq_false (show ¬(501:ℚ) ≤ p from fun hc => by linarith [h.2]),
      decide_eq_false (show ¬(601:ℚ) ≤ p from fun hc => by linarith [h.2]),
      decide_eq_false (show ¬(701:ℚ) ≤ p from fun hc => by linarith [h.2]),
      decide_eq_false (show ¬(801:ℚ) ≤ p from fun hc => by linarith [h.2]),
      decide_eq_false (show ¬(901:ℚ) ≤ p from fun hc => by linarith [h.2])]
  · simp [ranges, List.countP_cons, in_range, decide_eq_true h.1, decide_eq_true h.2,
      decide_eq_false (show ¬p < (100:ℚ) from fun hc => by linarith [h.1]),
      decide_eq_false (show ¬p < (200:ℚ) from fun hc => by linarith [h.1]),
      decide_eq_false (show ¬(301:ℚ) ≤ p from fun hc => by linarith [h.2]),
      decide_eq_false (show ¬(401:ℚ) ≤ p from fun hc => by linarith [h.2]),
      decide_eq_false (show ¬(501:ℚ) ≤ p from fun hc => by linarith [h.2]),
      decide_eq_false (show ¬(601:ℚ) ≤ p from fun hc => by linarith [h.2]),
      decide_eq_false (show ¬(701:ℚ) ≤ p from fun hc => by linarith [h.2]),
      decide_eq_false (show ¬(801:ℚ) ≤ p from fun hc => by linarith [h.2]),
      decide_eq_false (show ¬(901:ℚ) ≤ p from fun hc => by linarith [h.2])]
  · simp [ranges, List.countP_cons, in_range, decide_eq_true h.1, decide_eq_true h.2,
      decide_eq_false (show ¬p < (100:ℚ) from fun hc => by linarith [h.1]),
      decide_eq_false (show ¬p < (200:ℚ) from fun hc => by linarith [h.1]),
      decide_eq_false (show ¬p < (300:ℚ) from fun hc => by linarith [h.1]),
      decide_eq_false (show ¬(401:ℚ) ≤ p from fun hc => by linarith [h.2]),
      decide_eq_false (show ¬(501:ℚ) ≤ p from fun hc => by linarith [h.2]),
      decide_eq_false (show ¬(601:ℚ) ≤ p from fun hc => by linarith [h.2]),
      decide_eq_false (show ¬(701:ℚ) ≤ p from fun hc => by linarith [h.2]),
      decide_eq_false (show ¬(801:ℚ) ≤ p from fun hc => by linarith [h.2]),
      decide_eq_false (show ¬(901:ℚ) ≤ p from fun hc => by linarith [h.2])]
  · simp [ranges, List.countP_cons, in_range, decide_eq_true h.1, decide_eq_true h.2,
      decide_eq_false (show ¬p < (100:ℚ) from fun hc => by linarith [h.1]),
      decide_eq_false (show ¬p < (200:ℚ) from fun hc => by linarith [h.1]),
      decide_eq_false (show ¬p < (300:ℚ) from fun hc => by linarith [h.1]),
      decide_eq_false (show ¬p < (400:ℚ) from fun hc => by linarith [h.1]),
      decide_eq_false (show ¬(501:ℚ) ≤ p from fun hc => by linarith [h.2]),
      decide_eq_false (show ¬(601:ℚ) ≤ p from fun hc => by linarith [h.2]),
      decide_eq_false (show ¬(701:ℚ) ≤ p from fun hc => by linarith [h.2]),
      decide_eq_false (show ¬(801:ℚ) ≤ p from fun hc => by linarith [h.2]),
      decide_eq_false (show ¬(901:ℚ) ≤ p from fun hc => by linarith [h.2])]
  · simp [ranges, List.countP_cons, in_range, decide_eq_true h.1, decide_eq_true h.2,
      decide_eq_false (show ¬p < (100:ℚ) from fun hc => by linarith [h.1]),
      decide_eq_false (show ¬p < (200:ℚ) from fun hc => by linarith [h.1]),
      decide_eq_false (show ¬p < (300:ℚ) from fun hc => by linarith [h.1]),
      decide_eq_false (show ¬p < (400:ℚ) from fun hc => by linarith [h.1]),
      decide_eq_false (show ¬p < (500:ℚ) from fun hc => by linarith [h.1]),
      decide_eq_false (show ¬(601:ℚ) ≤ p from fun hc => by linarith [h.2]),
      decide_eq_false (show ¬(701:ℚ) ≤ p from fun hc => by linarith [h.2]),
      decide_eq_false (show ¬(801:ℚ) ≤ p from fun hc => by linarith [h.2]),
      decide_eq_false (show ¬(901:ℚ) ≤ p from fun hc => by linarith [h.2])]
  · simp [ranges, List.countP_cons, in_range, decide_eq_true h.1, decide_eq_true h.2,
      decide_eq_false (show ¬p < (100:ℚ) from fun hc => by linarith [h.1]),
      decide_eq_false (show ¬p < (200:ℚ) from fun hc => by linarith [h.1]),
      decide_eq_false (show ¬p < (300:ℚ) from fun hc => by linarith [h.1]),
      decide_eq_false (show ¬p < (400:ℚ) from fun hc => by linarith [h.1]),
      decide_eq_false (show ¬p < (500:ℚ) from fun hc => by linarith [h.1]),
      decide_eq_false (show ¬p < (600:ℚ) from fun hc => by linarith [h.1]),
      decide_eq_false (show ¬(701:ℚ) ≤ p from fun hc => by linarith [h.2]),
      decide_eq_false (show ¬(801:ℚ) ≤ p from fun hc => by linarith [h.2]),
      decide_eq_false (show ¬(901:ℚ) ≤ p from fun hc => by linarith [h.2])]
  · simp [ranges, List.countP_cons, in_range, decide_eq_true h.1, decide_eq_true h.2,
      decide_eq_false (show ¬p < (100:ℚ) from fun hc => by linarith [h.1]),
      decide_eq_false (show ¬p < (200:ℚ) from fun hc => by linarith [h.1]),
      decide_eq_false (show ¬p < (300:ℚ) from fun hc => by linarith [h.1]),
      decide_eq_false (show ¬p < (400:ℚ) from fun hc => by linarith [h.1]),
      decide_eq_false (show ¬p < (500:ℚ) from fun hc => by linarith [h.1]),
      decide_eq_false (show ¬p < (600:ℚ) from fun hc => by linarith [h.1]),
      decide_eq_false (show ¬p < (700:ℚ) from fun hc => by linarith [h.1]),
      decide_eq_false (show ¬(801:ℚ) ≤ p from fun hc => by linarith [h.2]),
      decide_eq_false (show ¬(901:ℚ) ≤ p from fun hc => by linarith [h.2])]
  · simp [ranges, List.countP_cons, in_range, decide_eq_true h.1, decide_eq_true h.2,
      decide_eq_false (show ¬p < (100:ℚ) from fun hc => by linarith [h.1]),
      decide_eq_false (show ¬p < (200:ℚ) from fun hc => by linarith [h.1]),
      decide_eq_false (show ¬p < (300:ℚ) from fun hc => by linarith [h.1]),
      decide_eq_false (show ¬p < (400:ℚ) from fun hc => by linarith [h.1]),
      decide_eq_false (show ¬p < (500:ℚ) from fun hc => by linarith [h.1]),
      decide_eq_false (show ¬p < (600:ℚ) from fun hc => by linarith [h.1]),
      decide_eq_false (show ¬p < (700:ℚ) from fun hc => by linarith [h.1]),
      decide_eq_false (show ¬p < (800:ℚ) from fun hc => by linarith [h.1]),
      decide_eq_false (show ¬(901:ℚ) ≤ p from fun hc => by linarith [h.2])]
  · simp [ranges, List.countP_cons, in_range, decide_eq_true h,
      decide_eq_false (show ¬p < (100:ℚ) from fun hc => by linarith),
      decide_eq_false (show ¬p < (200:ℚ) from fun hc => by linarith),
      decide_eq_false (show ¬p < (300:ℚ) from fun hc => by linarith),
      decide_eq_false (show ¬p < (400:ℚ) from fun hc => by linarith),
      decide_eq_false (show ¬p < (500:ℚ) from fun hc => by linarith),
      decide_eq_false (show ¬p < (600:ℚ) from fun hc => by linarith),
      decide_eq_false (show ¬p < (700:ℚ) from fun hc => by linarith),
      decide_eq_false (show ¬p < (800:ℚ) from fun hc => by linarith),
      decide_eq_false (show ¬p < (900:ℚ) from fun hc => by linarith)]

lemma sum_map_add_nat {α : Type} (l : List α) (f g : α → ℕ) :
    (l.map (fun a => f a + g a)).sum = (l.map f).sum + (l.map g).sum := by
  induction l with
  | nil => rfl
  | cons x l ih => simp only [List.map_cons, List.sum_cons, ih]; omega

lemma countP_eq_sum_ite {α : Type} (l : List α) (p : α → Bool) :
    l.countP p = (l.map (fun a => if p a then 1 else 0)).sum := by
  induction l with
  | nil => rfl
  | cons x l ih =>
    rw [List.countP_cons, ih, List.map_cons, List.sum_cons, Nat.add_comm]

lemma sum_countP_comm {α β : Type} (R : List β) (l : List α) (P : β → α → Bool) :
    (R.map (fun r => l.countP (P r))).sum = (l.map (fun x => R.countP (fun r => P r x))).sum := by
  induction l with
  | nil => simp [List.countP_nil]
  | cons x l ih =>
    have h1 : R.map (fun r => (x :: l).countP (P r))
        = R.map (fun r => l.countP (P r) + if P r x then 1 else 0) :=
      List.map_congr_left (fun r _ => List.countP_cons (P r) x l)
    rw [h1, sum_map_add_nat, ih, List.map_cons, List.sum_cons,
      ← countP_eq_sum_ite, Nat.add_comm]

lemma bar_sum_eq_length (l : List Transaction) (h : ∀ t ∈ l, good_price t.price) :
    (ranges.map (fun r => (l.filter (fun t => in_range r t.price)).length)).sum = l.length := by
  have h2 : ranges.map (fun r => (l.filter (fun t => in_range r t.price)).length)
      = ranges.map (fun r => l.countP (fun t => in_range r t.price)) :=
    List.map_congr_left (fun r _ => (List.countP_eq_length_filter _ _).symm)
  rw [h2, sum_countP_comm ranges l (fun r t => in_range r t.price)]
  have h3 : l.map (fun x => ranges.countP (fun r => in_range r x.price))
      = l.map (fun _ => 1) :=
    List.map_congr_left (fun t ht => ranges_countP_eq_one _ (h t ht))
  rw [h3]
  simp

/-- A store whose single March transaction has price 100.5, strictly
between the 100 that ends the first bucket and the 101 that starts the
second. -/
def exStoreGap : List Transaction :=
  [⟨1, "a", "b", mkRat 201 2, "c", ⟨2022, 3, 5⟩⟩]

/-- The spec example store: three March transactions priced 0, 150, 999. -/
def exStoreMarch : List Transaction :=
  [⟨1, "x", "xx", 0, "food", ⟨2021, 3, 2⟩⟩,
   ⟨2, "y", "yy", 150, "tech", ⟨2022, 3, 7⟩⟩,
   ⟨3, "z", "zz", 999, "toys", ⟨2021, 3, 9⟩⟩]

/-- C1 (counterexample): with a March transaction priced 100.5 the ten
bucket counts of `/bar_chart` sum to 0 while the `/statistics`
`total_items` for the same month is 1. -/
theorem bar_chart_sum_counterexample :
    ¬ ((bar_chart_core exStoreGap 3).map Bar.count).sum
        = (statistics_core exStoreGap 3).total_items := by decide

/-- C1 (amended): if every matching-month transaction has a non-negative
price outside the nine unit gaps `[100,101), ..., [900,901)` left between
consecutive buckets, the `/bar_chart` bucket counts sum to the
`/statistics` `total_items` for that month. -/
theorem bar_chart_sum_eq_statistics_total (store : List Transaction) (k : Nat)
    (h : ∀ t ∈ month_filter store k, good_price t.price) :
    ((bar_chart_core store k).map Bar.count).sum = (statistics_core store k).total_items := by
  have e : (bar_chart_core store k).map Bar.count
      = ranges.map (fun r => ((month_filter store k).filter (fun t => in_range r t.price)).length) := by
    simp [bar_chart_core, List.map_map]
  rw [e, bar_sum_eq_length _ h]
  rfl

theorem bar_chart_sum_witness :
    ((bar_chart_core exStoreMarch 3).map Bar.count).sum
      = (statistics_core exStoreMarch 3).total_items :=
  bar_chart_sum_eq_statistics_total exStoreMarch 3 (by decide)

/-- The bar-chart payload exactly as the spec lists it: ten buckets in
order, each counting the matching-month transactions whose price `p`
satisfies `start <= p < end` for the listed pair, with `p >= 901` for the
last bucket.  Written from the words of the spec, to be compared with
`bar_chart_core`, which is written from the code. -/
def bar_chart_spec (store : List Transaction) (k : Nat) : List Bar :=
  [ ⟨"0-100", ((month_filter store k).filter (fun t => decide (0 ≤ t.price ∧ t.price < 100))).length⟩
  , ⟨"101-200", ((month_filter store k).filter (fun t => decide (101 ≤ t.price ∧ t.price < 200))).length⟩
  , ⟨"201-300", ((month_filter store k).filter (fun t => decide (201 ≤ t.price ∧ t.price < 300))).length⟩
  , ⟨"301-400", ((month_filter store k).filter (fun t => decide (301 ≤ t.price ∧ t.price < 400))).length⟩
  , ⟨"401-500", ((month_filter store k).filter (fun t => decide (401 ≤ t.price ∧ t.price < 500))).length⟩
  , ⟨"501-600", ((month_filter store k).filter (fun t => decide (501 ≤ t.price ∧ t.price < 600))).length⟩
  , ⟨"601-700", ((month_filter store k).filter (fun t => decide (601 ≤ t.price ∧ t.price < 700))).length⟩
  , ⟨"701-800", ((month_filter store k).filter (fun t => decide (701 ≤ t.price ∧ t.price < 800))).length⟩
  , ⟨"801-900", ((month_filter store k).filter (fun t => decide (801 ≤ t.price ∧ t.price < 900))).length⟩
  , ⟨"901-above", ((month_filter store k).filter (fun t => decide (901 ≤ t.price))).length⟩ ]

lemma filter_in_range_some (l : List Transaction) (a b : ℚ) :
    l.filter (fun t => in_range (a, some b) t.price)
      = l.filter (fun t => decide (a ≤ t.price ∧ t.price < b)) :=
  List.filter_congr (fun t _ => by simp [in_range, Bool.decide_and])

lemma filter_in_range_none (l : List Transaction) (a : ℚ) :
    l.filter (fun t => in_range (a, none) t.price)
      = l.filter (fun t => decide (a ≤ t.price)) :=
  List.filter_congr (fun t _ => by simp [in_range])

lemma bar_core_eq_spec (store : List Transaction) (k : Nat) :
    bar_chart_core store k = bar_chart_spec store k := by
  unfold bar_chart_core bar_chart_spec
  simp only [ranges, List.map_cons, List.map_nil]
  rw [filter_in_range_some, filter_in_range_some, filter_in_range_some, filter_in_range_some,
      filter_in_range_some, filter_in_range_some, filter_in_range_some, filter_in_range_some,
      filter_in_range_some, filter_in_range_none]
  rw [show range_label ((0:ℚ), some (100:ℚ)) = "0-100" from by decide,
      show range_label ((101:ℚ), some (200:ℚ)) = "101-200" from by decide,
      show range_label ((201:ℚ), some (300:ℚ)) = "201-300" from by decide,
      show range_label ((301:ℚ), some (400:ℚ)) = "301-400" from by decide,
      show range_label ((401:ℚ), some (500:ℚ)) = "401-500" from by decide,
      show range_label ((501:ℚ), some (600:ℚ)) = "501-600" from by decide,
      show range_label ((601:ℚ), some (700:ℚ)) = "601-700" from by decide,
      show range_label ((701:ℚ), some (800:ℚ)) = "701-800" from by decide,
      show range_label ((801:ℚ), some (900:ℚ)) = "801-900" from by decide,
      show range_label ((901:ℚ), none) = "901-above" from by decide]

lemma strptime_empty : strptime "" = none := by decide

/-- C2: with a recognised month, `/bar_chart` returns exactly the ten
buckets in the listed order, each counting the matching-month
transactions with `start <= price < end` for the listed pair of
boundaries (`price >= 901` for the last), boundaries not made
contiguous. -/
theorem bar_chart_buckets_as_listed (store : List Transaction) (m : String) (k : Nat)
    (hm : strptime m = some k) :
    get_bar_chart store (some m) = .ok (bar_chart_spec store k) ∧
    (bar_chart_spec store k).length = 10 := by
  have hne : ¬ m = "" := by
    intro he
    rw [he, strptime_empty] at hm
    exact Option.noConfusion hm
  refine ⟨?_, rfl⟩
  simp only [get_bar_chart, if_neg hne, hm, bar_core_eq_spec]

theorem bar_chart_buckets_witness :
    get_bar_chart exStoreMarch (some "March") = .ok (bar_chart_spec exStoreMarch 3) ∧
    (bar_chart_spec exStoreMarch 3).length = 10 :=
  bar_chart_buckets_as_listed exStoreMarch "March" 3 (by decide)

lemma strptime_ne_empty {m : String} {k : Nat} (hm : strptime m = some k) : ¬ m = "" := by
  intro he
  rw [he, strptime_empty] at hm
  exact Option.noConfusion hm

/-- A `priceLike` oracle that never matches, for concrete instances. -/
def like_false : String → ℚ → Bool := fun _ _ => false

/-- A store with two March transactions, to separate pages of size one. -/
def exStore2 : List Transaction :=
  [⟨1, "first", "d1", 10, "food", ⟨2022, 3, 1⟩⟩,
   ⟨2, "second", "d2", 20, "tech", ⟨2022, 3, 2⟩⟩]

/-- The payload of an `ok` response, `none` for an error outcome. -/
def ok_payload {α : Type} : HResp α → Option α := fun r =>
  match r with
  | .ok a => some a
  | .badRequest _ => none
  | .exn _ => none

/-- C3 (code behaviour): an unrecognised month name passes the `if not
month` check of every handler and then raises `ValueError` in
`strptime`, so all five endpoints produce an uncaught exception (an HTTP
500 server error), not the structured 400 client error the spec
requires. -/
theorem unrecognized_month_raises (priceLike : String → ℚ → Bool)
    (store : List Transaction) (search : String) (page per_page : Int) :
    get_statistics store (some "Sausage") = .exn "ValueError" ∧
    get_bar_chart store (some "Sausage") = .exn "ValueError" ∧
    get_pie_chart store (some "Sausage") = .exn "ValueError" ∧
    get_transactions priceLike store search page per_page (some "Sausage") = .exn "ValueError" ∧
    get_combined_data priceLike store search page per_page (some "Sausage") = .exn "ValueError" := by
  have h : strptime "Sausage" = none := by decide
  have hne : ¬ ("Sausage" : String) = "" := by decide
  have hq : transactions_query priceLike store search (some "Sausage") = none := by
    simp [transactions_query, h, hne]
  have htx : get_transactions priceLike store search page per_page (some "Sausage")
      = .exn "ValueError" := by
    simp [get_transactions, hq]
  refine ⟨by simp [get_statistics, h, hne], by simp [get_bar_chart, h, hne],
    by simp [get_pie_chart, h, hne], htx, ?_⟩
  simp [get_combined_data, htx, hne]

/-- C4 (counterexample): on `/combined_data?month=March&page=2&per_page=1`
over a two-transaction March store, the `transactions` field holds the
second page of size one, not the first page with the default page size,
so the outer pagination parameters are not ignored. -/
theorem combined_params_counterexample :
    (ok_payload (get_combined_data like_false exStore2 "" 2 1 (some "March"))).map
        Combined.transactions
      ≠ ok_payload (get_transactions like_false exStore2 "" 1 10 (some "March")) := by
  decide

/-- C4 (amended): the `transactions` field of a `/combined_data` response
equals the `/transactions` listing computed with the same `search`,
`page` and `per_page` values as the outer request: those parameters are
forwarded to the nested listing, defaults applying only when they are
absent. -/
theorem combined_transactions_use_outer_params (priceLike : String → ℚ → Bool)
    (store : List Transaction) (search : String) (page per_page : Int)
    (m : String) (k : Nat) (hm : strptime m = some k) :
    (ok_payload (get_combined_data priceLike store search page per_page (some m))).map
        Combined.transactions
      = ok_payload (get_transactions priceLike store search page per_page (some m)) := by
  have hne : ¬ m = "" := strptime_ne_empty hm
  have hq : transactions_query priceLike store search (some m)
      = some (if search = "" then month_filter store k
              else (month_filter store k).filter (like_match priceLike search)) := by
    simp [transactions_query, hne, hm]
  simp [get_combined_data, get_transactions, get_statistics, get_bar_chart,
    get_pie_chart, hne, hm, hq, ok_payload]

theorem combined_transactions_witness :
    (ok_payload (get_combined_data like_false exStore2 "" 2 1 (some "March"))).map
        Combined.transactions
      = ok_payload (get_transactions like_false exStore2 "" 2 1 (some "March")) :=
  combined_transactions_use_outer_params like_false exStore2 "" 2 1 "March" 3 (by decide)

/-- C5: on a successfully built (month/search) filtered set `l` of size
`M`, `/transactions` with `page >= 1` and `per_page = N >= 0` returns the
contiguous slice at offset `(page-1)*N`, of length
`min(N, max(0, M - (page-1)*N))`; a page past the last yields `[]` and
never an error. -/
theorem transactions_pagination (priceLike : String → ℚ → Bool)
    (store : List Transaction) (search : String) (m? : Option String)
    (page per_page : Int) (l : List Transaction)
    (hq : transactions_query priceLike store search m? = some l)
    (hp : 1 ≤ page) (hn : 0 ≤ per_page) :
    get_transactions priceLike store search page per_page m?
        = .ok ((paginate l page per_page).map serialize) ∧
    ((paginate l page per_page).length : Int)
        = min per_page (max 0 ((l.length : Int) - (page - 1) * per_page)) ∧
    paginate l page per_page
        = (l.drop ((page - 1) * per_page).toNat).take per_page.toNat ∧
    ((l.length : Int) ≤ (page - 1) * per_page → paginate l page per_page = []) := by
  have hp' : ¬ page < 1 := by omega
  have hn' : ¬ per_page < 0 := by omega
  have hpag : paginate l page per_page
      = (l.drop ((page - 1) * per_page).toNat).take per_page.toNat := by
    simp [paginate, hp', hn']
  refine ⟨by simp [get_transactions, hq], ?_, hpag, ?_⟩
  · rw [hpag, List.length_take, List.length_drop]
    have hoff : 0 ≤ (page - 1) * per_page := mul_nonneg (by omega) hn
    generalize hG : (page - 1) * per_page = off at hoff ⊢
    omega
  · intro hle
    rw [hpag]
    have hoff : 0 ≤ (page - 1) * per_page := mul_nonneg (by omega) hn
    generalize hG : (page - 1) * per_page = off at hle hoff ⊢
    rw [List.drop_eq_nil_of_le (by omega), List.take_nil]

theorem transactions_pagination_witness :
    get_transactions like_false exStore2 "" 2 1 (some "March")
        = .ok ((paginate (month_filter exStore2 3) 2 1).map serialize) ∧
    ((paginate (month_filter exStore2 3) 2 1).length : Int)
        = min 1 (max 0 (((month_filter exStore2 3).length : Int) - (2 - 1) * 1)) ∧
    paginate (month_filter exStore2 3) 2 1
        = ((month_filter exStore2 3).drop (((2:Int) - 1) * 1).toNat).take (1:Int).toNat ∧
    (((month_filter exStore2 3).length : Int) ≤ (2 - 1) * 1 →
      paginate (month_filter exStore2 3) 2 1 = []) :=
  transactions_pagination like_false exStore2 "" (some "March") 2 1
    (month_filter exStore2 3) (by decide) (by decide) (by decide)

/-- C6 (counterexample): for a month with no matching transactions the
`total_sales` value is SQL `NULL`, not the (empty) sum of prices. -/
theorem statistics_total_sales_counterexample :
    (statistics_core ([] : List Transaction) 3).total_sales
      ≠ some (((month_filter ([] : List Transaction) 3).map (fun t => t.price)).sum) := by
  decide

/-- C6 (amended): for a recognised month, `/statistics` reports
`total_items` as the matching-month row count, `not_sold_items` as the
count of matching rows with price 0 (which is at most `total_items`),
and, whenever at least one row matches, `total_sales` as the sum of
their prices (`total_sales` is `NULL` when no row matches). -/
theorem statistics_fields (store : List Transaction) (m : String) (k : Nat)
    (hm : strptime m = some k) :
    get_statistics store (some m) = .ok (statistics_core store k) ∧
    (statistics_core store k).total_items = (month_filter store k).length ∧
    (statistics_core store k).not_sold_items
        = ((month_filter store k).filter (fun t => t.price == 0)).length ∧
    (statistics_core store k).not_sold_items ≤ (statistics_core store k).total_items ∧
    (month_filter store k ≠ [] →
      (statistics_core store k).total_sales
        = some (((month_filter store k).map (fun t => t.price)).sum)) := by
  have hne : ¬ m = "" := strptime_ne_empty hm
  refine ⟨by simp [get_statistics, hne, hm], rfl, rfl, List.length_filter_le _ _,
    fun hne2 => ?_⟩
  simp [statistics_core, sql_sum, hne2]

theorem statistics_fields_witness :
    get_statistics exStoreMarch (some "March") = .ok (statistics_core exStoreMarch 3) ∧
    (statistics_core exStoreMarch 3).total_items = (month_filter exStoreMarch 3).length ∧
    (statistics_core exStoreMarch 3).not_sold_items
        = ((month_filter exStoreMarch 3).filter (fun t => t.price == 0)).length ∧
    (statistics_core exStoreMarch 3).not_sold_items
        ≤ (statistics_core exStoreMarch 3).total_items ∧
    (month_filter exStoreMarch 3 ≠ [] →
      (statistics_core exStoreMarch 3).total_sales
        = some (((month_filter exStoreMarch 3).map (fun t => t.price)).sum)) :=
  statistics_fields exStoreMarch "March" 3 (by decide)

/-- C7: for a recognised month, the `/pie_chart` per-category counts sum
to the `/statistics` `total_items` of that month, and every listed
category has a positive count (a category with no matching transactions
does not appear). -/
theorem pie_chart_counts (store : List Transaction) (m : String) (k : Nat)
    (hm : strptime m = some k) :
    get_pie_chart store (some m) = .ok (pie_chart_core store k) ∧
    ((pie_chart_core store k).map Pie.count).sum = (statistics_core store k).total_items ∧
    ∀ e ∈ pie_chart_core store k, 0 < e.count := by
  have hne : ¬ m = "" := strptime_ne_empty hm
  refine ⟨by simp [get_pie_chart, hne, hm], ?_, ?_⟩
  · have e : (pie_chart_core store k).map Pie.count
        = (((month_filter store k).map (fun t => t.category)).dedup).map
            (fun c => ((month_filter store k).map (fun t => t.category)).count c) := by
      simp [pie_chart_core, List.map_map]
    rw [e, List.sum_map_count_dedup_eq_length]
    simp [statistics_core]
  · intro e he
    simp only [pie_chart_core, List.mem_map] at he
    obtain ⟨c, hc, rfl⟩ := he
    exact List.count_pos_iff.mpr (List.mem_dedup.mp hc)

theorem pie_chart_counts_witness :
    get_pie_chart exStoreMarch (some "March") = .ok (pie_chart_core exStoreMarch 3) ∧
    ((pie_chart_core exStoreMarch 3).map Pie.count).sum
      = (statistics_core exStoreMarch 3).total_items :=
  ⟨(pie_chart_counts exStoreMarch "March" 3 (by decide)).1,
   (pie_chart_counts exStoreMarch "March" 3 (by decide)).2.1⟩

/-- C8: when the `month` request argument is absent, `/statistics`,
`/bar_chart`, `/pie_chart` and `/combined_data` all return the structured
400 response `{'error': 'Month is required'}`, independently of the store
(no query is made and no result data is returned). -/
theorem missing_month_rejected (priceLike : String → ℚ → Bool)
    (store : List Transaction) (search : String) (page per_page : Int) :
    get_statistics store none = .badRequest "Month is required" ∧
    get_bar_chart store none = .badRequest "Month is required" ∧
    get_pie_chart store none = .badRequest "Month is required" ∧
    get_combined_data priceLike store search page per_page none
      = .badRequest "Month is required" :=
  ⟨rfl, rfl, rfl, rfl⟩

/-- C9: running `setup` against a non-empty store neither fetches the
seed nor changes any stored record: repeated startups are idempotent. -/
theorem setup_skips_seeding (store seed : List Transaction) (h : store ≠ []) :
    setup store seed = (store, false) := by
  cases store with
  | nil => exact absurd rfl h
  | cons a l => rfl

theorem setup_skips_seeding_witness :
    setup exStoreMarch exStoreGap = (exStoreMarch, false) :=
  setup_skips_seeding exStoreMarch exStoreGap (by decide)

/-- C10: for a recognised month with no matching transactions,
`/statistics` reports `total_items = 0`, `not_sold_items = 0` and
`total_sales` as SQL `NULL` (the `SUM` of an empty set), not 0. -/
theorem statistics_empty_month (store : List Transaction) (m : String) (k : Nat)
    (hm : strptime m = some k) (hempty : month_filter store k = []) :
    get_statistics store (some m) = .ok ⟨none, 0, 0⟩ := by
  have hne : ¬ m = "" := strptime_ne_empty hm
  simp [get_statistics, hne, hm, statistics_core, hempty, sql_sum]

theorem statistics_empty_month_witness :
    get_statistics exStoreGap (some "April") = .ok ⟨none, 0, 0⟩ :=
  statistics_empty_month exStoreGap "April" 4 (by decide) (by decide)
